import Mathlib

/-!
Verification of the pane lifecycle manager, capture scheduler and message
router of the claude-canvas repository (src/canvas/src/terminal.ts, the
useLeetPane hook, and the WandbCanvas message dispatch), via a shallow
embedding.  The tmux multiplexer and the process driver are modelled as a
pure oracle (`Tmux`); the persisted pane-reference file is a `String`
threaded through every operation; every external command issued is logged
in an event trace (`Ev`).
-/

/-- JS `String.prototype.trim` whitespace test (the characters that occur
in this code base: space, newline, tab, carriage return). -/
def isJsWs (c : Char) : Bool :=
  c = ' ' || c = '\n' || c = '\t' || c = '\r'

/-- Model of JS `s.trim()`: strip whitespace from both ends. -/
def strTrim (s : String) : String :=
  ⟨((s.data.dropWhile isJsWs).reverse.dropWhile isJsWs).reverse⟩

/-- Exit status plus captured stdout of one external command invocation
(`spawn`/`spawnSync` on the tmux binary).  A process-level spawn error is
folded into a nonzero status: in the source both paths resolve to the same
observable null/false result. -/
structure ProcResult where
  status : Int
  stdout : String
  deriving DecidableEq

/-- Pure oracle for the tmux multiplexer as seen through the process
driver during one manager operation.
`query pid` models `tmux display-message -t pid -p "#{pane_id}"`;
`split` models `tmux split-window -h -p 50 -P -F "#{pane_id}" cmd`;
`kill pid` models the success of `tmux kill-pane -t pid`;
`capturePane pid` models `tmux capture-pane -p -e -t pid`;
`send pid keys` models the success of `tmux send-keys -t pid keys`. -/
structure Tmux where
  inTmux : Bool
  query : String → ProcResult
  split : ProcResult
  kill : String → Bool
  capturePane : String → ProcResult
  send : String → String → Bool

/-- Trace of external tmux commands issued by a manager operation. -/
inductive Ev
  | query (paneId : String)
  | splitCmd
  | killCmd (paneId : String)
  | captureCmd (paneId : String)
  | sendCmd (paneId : String) (keys : String)
  deriving DecidableEq

/-- `getLeetPaneId` (terminal.ts 212-230): read the persisted id; an empty
(trimmed) store is "no reference" with no command issued; otherwise verify
with `display-message`; valid only if the query exits 0 AND echoes the same
id back; on any verification failure blank the store and return null.
Returns (result, new store contents, commands issued). -/
def getLeetPaneId (t : Tmux) (file : String) : Option String × String × List Ev :=
  let paneId := strTrim file
  if paneId = "" then (none, file, [])
  else
    let r := t.query paneId
    if r.status = 0 ∧ strTrim r.stdout = paneId then
      (some paneId, file, [Ev.query paneId])
    else
      (none, "", [Ev.query paneId])

/-- `isLeetPaneAlive` (terminal.ts 344-347): alive iff `getLeetPaneId`
returns a pane id. -/
def isLeetPaneAlive (t : Tmux) (file : String) : Bool × String × List Ev :=
  let g := getLeetPaneId t file
  (g.1.isSome, g.2.1, g.2.2)

/-- `killLeetPane` (terminal.ts 323-339): true immediately when no
verified reference; otherwise issue `kill-pane` and blank the store on
both the close and the error path, resolving the command's success. -/
def killLeetPane (t : Tmux) (file : String) : Bool × String × List Ev :=
  let g := getLeetPaneId t file
  match g.1 with
  | none => (true, g.2.1, g.2.2)
  | some pid => (t.kill pid, "", g.2.2 ++ [Ev.killCmd pid])

/-- `sendKeysToLeet` (terminal.ts 308-318): false when no verified
reference; otherwise forward the keys and resolve the command's success. -/
def sendKeysToLeet (t : Tmux) (keys : String) (file : String) : Bool × String × List Ev :=
  let g := getLeetPaneId t file
  match g.1 with
  | none => (false, g.2.1, g.2.2)
  | some pid => (t.send pid keys, g.2.1, g.2.2 ++ [Ev.sendCmd pid keys])

/-- `captureLeetPane` (terminal.ts 286-303): null when no verified
reference; otherwise run `capture-pane`, returning its stdout on exit 0
and null otherwise. -/
def captureLeetPane (t : Tmux) (file : String) : Option String × String × List Ev :=
  let g := getLeetPaneId t file
  match g.1 with
  | none => (none, g.2.1, g.2.2)
  | some pid =>
    let r := t.capturePane pid
    ((if r.status = 0 then some r.stdout else none), g.2.1, g.2.2 ++ [Ev.captureCmd pid])

/-- `spawnLeetPane` (terminal.ts 245-280): throws when not inside tmux;
otherwise kills an existing verified pane first, then issues exactly one
`split-window`; on exit 0 with a nonempty (trimmed) printed id, persists
and returns that id; otherwise resolves null.  The `Except` error is the
thrown `Error` message. -/
def spawnLeetPane (t : Tmux) (file : String) :
    Except String (Option String × String × List Ev) :=
  if t.inTmux = false then
    Except.error "Leet requires tmux. Please run inside a tmux session."
  else
    let g := getLeetPaneId t file
    let k := if g.1.isSome then killLeetPane t g.2.1 else (true, g.2.1, [])
    let r := t.split
    if r.status = 0 ∧ strTrim r.stdout ≠ "" then
      Except.ok (some (strTrim r.stdout), strTrim r.stdout, g.2.2 ++ k.2.2 ++ [Ev.splitCmd])
    else
      Except.ok (none, k.2.1, g.2.2 ++ k.2.2 ++ [Ev.splitCmd])

/-! ## The useLeetPane hook (use-leet-pane.ts) -/

/-- `LeetPaneState` (types.ts): the in-memory pane state held by the hook.
`Date` is modelled as a `Nat` tick stamp. -/
structure LeetPaneState where
  paneId : Option String
  isRunning : Bool
  lastCapture : String
  lastCaptureTime : Option Nat
  deriving DecidableEq

/-- The observable React state of one `useLeetPane` instance: the
`LeetPaneState`, the separate `output` state and the `error` state. -/
structure HookState where
  st : LeetPaneState
  output : String
  error : Option String
  deriving DecidableEq

/-- Which pane-lifecycle-manager operations a hook routine invoked
(`captureLeetPane` and `isLeetPaneAlive`). -/
inductive MgrCall
  | mCapture
  | mIsAlive
  deriving DecidableEq

/-- Outcome of one hook routine: the new state, the arguments passed to
the `onCapture` sink (in order), the number of `onExit` invocations, and
the manager operations invoked. -/
structure TickOut where
  state : HookState
  captures : List String
  exits : Nat
  calls : List MgrCall
  deriving DecidableEq

/-- `doCapture` (use-leet-pane.ts 100-122), one tick of the capture loop:
a string result updates output/lastCapture/lastCaptureTime and fires
`onCapture` once with the text; a null result checks `isLeetPaneAlive`
and, only when dead, clears isRunning/paneId and fires `onExit` once.
The capture result and the liveness answer are the driver's inputs. -/
def doCapture (captured : Option String) (alive : Bool) (now : Nat)
    (s : HookState) : TickOut :=
  match captured with
  | some text =>
    { state := { s with
        output := text,
        st := { s.st with lastCapture := text, lastCaptureTime := some now } },
      captures := [text], exits := 0, calls := [MgrCall.mCapture] }
  | none =>
    if alive then
      { state := s, captures := [], exits := 0,
        calls := [MgrCall.mCapture, MgrCall.mIsAlive] }
    else
      { state := { s with st := { s.st with isRunning := false, paneId := none } },
        captures := [], exits := 1,
        calls := [MgrCall.mCapture, MgrCall.mIsAlive] }

/-- The capture loop (use-leet-pane.ts 97-136): run `n` timer ticks
starting at tick stamp `k`, feeding each tick from `driver` (capture
result, liveness answer).  A tick only runs while the effect is armed,
i.e. while `isRunning` holds and a pane id is present; once `doCapture`
clears them the interval is torn down and no further tick fires. -/
def runTicks (driver : Nat → Option String × Bool) :
    Nat → Nat → HookState → TickOut
  | 0, _, s => { state := s, captures := [], exits := 0, calls := [] }
  | n + 1, k, s =>
    if s.st.isRunning ∧ s.st.paneId.isSome then
      let d := driver k
      let o1 := doCapture d.1 d.2 k s
      let o2 := runTicks driver n (k + 1) o1.state
      { state := o2.state, captures := o1.captures ++ o2.captures,
        exits := o1.exits + o2.exits, calls := o1.calls ++ o2.calls }
    else
      { state := s, captures := [], exits := 0, calls := [] }

/-- The hook's on-demand `capture` (use-leet-pane.ts 143-154), used by the
`refresh` message: updates output/lastCapture/lastCaptureTime on a string
result and returns it; on null it does nothing at all.  It never consults
liveness and never fires either sink. -/
def capture (captured : Option String) (now : Nat) (s : HookState) :
    Option String × TickOut :=
  match captured with
  | some text =>
    (some text,
     { state := { s with
         output := text,
         st := { s.st with lastCapture := text, lastCaptureTime := some now } },
       captures := [], exits := 0, calls := [MgrCall.mCapture] })
  | none =>
    (none, { state := s, captures := [], exits := 0, calls := [MgrCall.mCapture] })

/-- The hook's `restart` (use-leet-pane.ts 156-181): kill, reset the state
and the error, respawn; `spawnResult` is the value the respawn resolved
with.  On an id: full fresh running state; on null: cleared state plus an
error message.  `output` is left untouched on both paths. -/
def restart (spawnResult : Option String) (s : HookState) : HookState :=
  match spawnResult with
  | some pid =>
    { st := { paneId := some pid, isRunning := true,
              lastCapture := "", lastCaptureTime := none },
      output := s.output, error := none }
  | none =>
    { st := { paneId := none, isRunning := false,
              lastCapture := "", lastCaptureTime := none },
      output := s.output, error := some "Failed to restart Leet pane" }

/-- The hook's `sendKeys` (use-leet-pane.ts 138-141): false without
touching tmux when the hook holds no pane id; otherwise defer to
`sendKeysToLeet`. -/
def sendKeys (statePaneId : Option String) (t : Tmux) (keys : String)
    (file : String) : Bool × String × List Ev :=
  match statePaneId with
  | none => (false, file, [])
  | some _ => sendKeysToLeet t keys file

/-- What the capture-interval effect (use-leet-pane.ts 97-136) does when
it (re)runs: nothing unless running with a pane id; otherwise one
immediate capture and a repeating timer armed unconditionally at
`captureInterval`, whose JS default parameter is 1000 (applied only when
the option is omitted, not when it is 0). -/
structure StartResult where
  immediateCapture : Bool
  timerArmed : Bool
  timerInterval : Nat
  deriving DecidableEq

/-- Start behaviour of the capture effect (use-leet-pane.ts 42, 97-136). -/
def captureEffectStart (isRunning : Bool) (paneId : Option String)
    (captureInterval : Option Nat) : StartResult :=
  if isRunning ∧ paneId.isSome then
    { immediateCapture := true, timerArmed := true,
      timerInterval := captureInterval.getD 1000 }
  else
    { immediateCapture := false, timerArmed := false, timerInterval := 0 }

/-- The interval WandbCanvas passes to the hook (part_000 line 48):
`config?.refreshInterval || 2000` — JS `||` treats 0 as falsy, so both an
absent and a zero `refreshInterval` become 2000. -/
def canvasCaptureInterval (refreshInterval : Option Nat) : Nat :=
  match refreshInterval with
  | none => 2000
  | some n => if n = 0 then 2000 else n

/-! ## The WandbCanvas message router (part_000) -/

/-- `WandbViewState` (types.ts), with `Date.toISOString()` modelled as an
opaque `String` stamp.  `runInfo` and `visibleMetrics` are always built as
none/[] by `sendViewState` (part_000 lines 70-71). -/
structure WandbViewState where
  terminalSnapshot : String
  cols : Nat
  rows : Nat
  runInfo : Option String
  visibleMetrics : List String
  leetPaneId : Option String
  errors : Option (List String)
  lastUpdated : String
  deriving DecidableEq

/-- Outbound messages the canvas can send (part_000). -/
inductive OutMsg
  | ready (scenario : String)
  | pong
  | viewStateMsg (v : WandbViewState)
  | cancelled (reason : String)
  deriving DecidableEq

/-- Inbound controller messages dispatched by WandbCanvas (part_000
lines 113-135). -/
inductive InMsg
  | close
  | update (cfg : String)
  | ping
  | getViewState
  | sendKeysMsg (keys : String)
  | refresh
  deriving DecidableEq

/-- Hook operations the router invokes while handling a message. -/
inductive HookAct
  | actStop
  | actExitApp
  | actSetConfig (cfg : String)
  | actSendKeys (keys : String)
  | actCapture
  deriving DecidableEq

/-- `sendViewState` (part_000 lines 63-86): no-op when the IPC client is
absent; otherwise build a `WandbViewState` from the given terminal output,
the hook's pane id and error, and send it. -/
def sendViewState (connected : Bool) (terminalOutput : String)
    (s : HookState) (dims : Nat × Nat) (now : String) : List OutMsg :=
  if connected then
    [OutMsg.viewStateMsg
      { terminalSnapshot := terminalOutput,
        cols := dims.1, rows := dims.2,
        runInfo := none, visibleMetrics := [],
        leetPaneId := s.st.paneId,
        errors := (match s.error with
                   | some e => some [e]
                   | none => none),
        lastUpdated := now }]
  else []

/-- Dispatch context of a mounted WandbCanvas: `current` is the hook
state at message-arrival time (what "the latest cached capture output"
denotes); `mount` and `mountDims` are the hook state and terminal
dimensions of the render in which the connect effect ran, permanently
captured by the once-registered `onMessage` closure. -/
structure CanvasMsgCtx where
  current : HookState
  mount : HookState
  mountDims : Nat × Nat
  deriving DecidableEq

/-- The `onMessage` dispatch of WandbCanvas (part_000 lines 104-165).
The connect effect registers this handler once (its deps are only
socketPath, scenario and exit, all stable), so the handler closes over
the mount render's `leetPane` object and `sendViewState` callback for
good: `getViewState` replies from the mount-render output, pane id,
error and dimensions held in the closure (`ctx.mount`, `ctx.mountDims`),
never from the hook state current when the message arrives
(`ctx.current`); `refresh` invokes the hook's capture (a dep-free
useCallback, hence not subject to the staleness). -/
def handleMessage (connected : Bool) (ctx : CanvasMsgCtx)
    (now : String) : InMsg → List OutMsg × List HookAct
  | InMsg.close => ([], [HookAct.actStop, HookAct.actExitApp])
  | InMsg.update cfg => ([], [HookAct.actSetConfig cfg])
  | InMsg.ping => ([OutMsg.pong], [])
  | InMsg.getViewState =>
    (sendViewState connected ctx.mount.output ctx.mount ctx.mountDims now, [])
  | InMsg.sendKeysMsg k => ([], [HookAct.actSendKeys k])
  | InMsg.refresh => ([], [HookAct.actCapture])

/-! ## Concrete oracles used to exercise the definitions -/

/-- A healthy tmux: the query echoes the asked-for pane id (with the
trailing newline tmux prints), splitting succeeds printing pane id %7,
kill/capture/send all succeed. -/
def tmuxLive : Tmux :=
  { inTmux := true,
    query := fun pid => { status := 0, stdout := pid ++ "\n" },
    split := { status := 0, stdout := "%7\n" },
    kill := fun _ => true,
    capturePane := fun _ => { status := 0, stdout := "line1\nline2" },
    send := fun _ _ => true }

/-- A tmux session where every pane operation fails (dead pane): the
verification query exits nonzero, split/kill/capture/send fail. -/
def tmuxDead : Tmux :=
  { inTmux := true,
    query := fun _ => { status := 1, stdout := "" },
    split := { status := 1, stdout := "" },
    kill := fun _ => false,
    capturePane := fun _ => { status := 1, stdout := "" },
    send := fun _ _ => false }

/-- A tmux that silently resolves any queried id to a different live pane
(%9): the query exits 0 but echoes a different id back. -/
def tmuxMismatch : Tmux :=
  { inTmux := true,
    query := fun _ => { status := 0, stdout := "%9\n" },
    split := { status := 0, stdout := "%9\n" },
    kill := fun _ => true,
    capturePane := fun _ => { status := 0, stdout := "" },
    send := fun _ _ => true }

/-- No tmux session at all (TMUX env var unset). -/
def tmuxNoSession : Tmux :=
  { inTmux := false,
    query := fun _ => { status := 1, stdout := "" },
    split := { status := 1, stdout := "" },
    kill := fun _ => false,
    capturePane := fun _ => { status := 1, stdout := "" },
    send := fun _ _ => false }

/-- The fake pane driver of the capture-scheduler scenario: text on ticks
1-3, null with liveness false from tick 4 on. -/
def scenarioDriver : Nat → Option String × Bool :=
  fun k => if k ≤ 3 then (some ("text" ++ toString k), true) else (none, false)

/-- A live initial hook state for the scheduler scenario. -/
def hookStart : HookState :=
  { st := { paneId := some "%1", isRunning := true,
            lastCapture := "", lastCaptureTime := none },
    output := "", error := none }

/-- The mount-render hook state: the useState initials of
use-leet-pane.ts 44-51 — at mount time the asynchronous spawn has not
resolved, so there is no pane id, nothing running and empty output. -/
def mountHookState : HookState :=
  { st := { paneId := none, isRunning := false,
            lastCapture := "", lastCaptureTime := none },
    output := "", error := none }

/-- A dispatch context in which, since mount, the spawn resolved to pane
"%7" and the scheduler captured "line1" into the hook state, while the
`onMessage` closure still holds the mount render. -/
def canvasCtxAfterCapture : CanvasMsgCtx :=
  { current :=
      (doCapture (some "line1") true 1
        { mountHookState with
          st := { mountHookState.st with
                  paneId := some "%7", isRunning := true } }).state,
    mount := mountHookState,
    mountDims := (80, 24) }

/-! ## Helper lemmas about store verification -/

theorem getLeetPaneId_cases (t : Tmux) (file : String) :
    (strTrim file = "" ∧ getLeetPaneId t file = (none, file, [])) ∨
    (strTrim file ≠ "" ∧
      getLeetPaneId t file =
        (some (strTrim file), file, [Ev.query (strTrim file)])) ∨
    (strTrim file ≠ "" ∧
      getLeetPaneId t file = (none, "", [Ev.query (strTrim file)])) := by
  unfold getLeetPaneId
  dsimp only
  split_ifs with h1 h2
  · exact Or.inl ⟨h1, rfl⟩
  · exact Or.inr (Or.inl ⟨h1, rfl⟩)
  · exact Or.inr (Or.inr ⟨h1, rfl⟩)

theorem getLeetPaneId_some_eq (t : Tmux) (file : String) (pid : String)
    (h : (getLeetPaneId t file).1 = some pid) :
    getLeetPaneId t file = (some pid, file, [Ev.query pid]) := by
  rcases getLeetPaneId_cases t file with ⟨_, he⟩ | ⟨_, he⟩ | ⟨_, he⟩ <;>
    rw [he] at h ⊢ <;> simp_all

theorem getLeetPaneId_empty (t : Tmux) :
    getLeetPaneId t "" = (none, "", []) := by
  unfold getLeetPaneId
  simp [strTrim, isJsWs]

theorem getLeetPaneId_of_trim_empty (t : Tmux) (f : String)
    (h : strTrim f = "") : getLeetPaneId t f = (none, f, []) := by
  unfold getLeetPaneId
  dsimp only
  rw [if_pos h]

theorem killLeetPane_of_trim_empty (t : Tmux) (f : String)
    (h : strTrim f = "") : killLeetPane t f = (true, f, []) := by
  unfold killLeetPane
  rw [getLeetPaneId_of_trim_empty t f h]

theorem killLeetPane_empty (t : Tmux) : killLeetPane t "" = (true, "", []) :=
  killLeetPane_of_trim_empty t "" rfl

theorem isLeetPaneAlive_of_trim_empty (t : Tmux) (f : String)
    (h : strTrim f = "") : (isLeetPaneAlive t f).1 = false := by
  unfold isLeetPaneAlive
  rw [getLeetPaneId_of_trim_empty t f h]
  rfl

/-! ## Claim theorems -/

/-- C1: for every sequence of `spawnLeetPane` calls at most one persisted
leet pane reference is valid at a time: when a verified live reference
`pid` exists, `spawnLeetPane` kills that pane (via `killLeetPane`, which
re-verifies and issues `kill-pane -t pid`) strictly before issuing the
single `split-window` command, as the command trace shows. -/
theorem spawnLeetPane_kills_existing_before_split (t : Tmux) (file pid : String)
    (hin : t.inTmux = true)
    (hget : (getLeetPaneId t file).1 = some pid) :
    ∃ res fout, spawnLeetPane t file =
      Except.ok (res, fout,
        [Ev.query pid, Ev.query pid, Ev.killCmd pid, Ev.splitCmd]) := by
  have hg := getLeetPaneId_some_eq t file pid hget
  unfold spawnLeetPane killLeetPane
  simp only [hg, hin, Bool.true_eq_false, if_false, Option.isSome_some, if_true]
  split_ifs with h
  · exact ⟨some (strTrim (t.split).stdout), strTrim (t.split).stdout, rfl⟩
  · exact ⟨none, "", rfl⟩

/-- Witness for C1 at a healthy tmux with persisted reference "%5". -/
theorem spawnLeetPane_kills_existing_before_split_witness :
    ∃ res fout, spawnLeetPane tmuxLive "%5" =
      Except.ok (res, fout,
        [Ev.query "%5", Ev.query "%5", Ev.killCmd "%5", Ev.splitCmd]) :=
  spawnLeetPane_kills_existing_before_split tmuxLive "%5" "%5" rfl (by decide)

/-- C2: `killLeetPane` is idempotent and unconditionally clears the store:
with no persisted reference it returns true issuing nothing; with a stale
unverifiable reference it returns true without issuing any kill command;
with a verified reference `pid` it issues `kill-pane -t pid` and blanks
the store whether or not the command succeeds; in every case a subsequent
`isLeetPaneAlive` is false and a second `killLeetPane` returns true while
issuing no command at all. -/
theorem killLeetPane_idempotent_clears_store (t : Tmux) (file : String) :
    (strTrim file = "" → killLeetPane t file = (true, file, [])) ∧
    ((getLeetPaneId t file).1 = none →
      (killLeetPane t file).1 = true ∧
      ∀ p, Ev.killCmd p ∉ (killLeetPane t file).2.2) ∧
    (∀ pid, (getLeetPaneId t file).1 = some pid →
      killLeetPane t file = (t.kill pid, "", [Ev.query pid, Ev.killCmd pid])) ∧
    (isLeetPaneAlive t (killLeetPane t file).2.1).1 = false ∧
    (killLeetPane t (killLeetPane t file).2.1).1 = true ∧
    (killLeetPane t (killLeetPane t file).2.1).2.2 = [] := by
  rcases getLeetPaneId_cases t file with ⟨h1, he⟩ | ⟨h1, he⟩ | ⟨h1, he⟩
  · have hk : killLeetPane t file = (true, file, []) :=
      killLeetPane_of_trim_empty t file h1
    refine ⟨fun _ => hk, fun _ => ?_, fun pid hp => ?_, ?_, ?_, ?_⟩
    · rw [hk]; exact ⟨rfl, by simp⟩
    · rw [he] at hp; simp at hp
    · rw [hk]; exact isLeetPaneAlive_of_trim_empty t file h1
    · rw [hk]; rw [killLeetPane_of_trim_empty t file h1]
    · rw [hk]; rw [killLeetPane_of_trim_empty t file h1]
  · have hk : killLeetPane t file =
        (t.kill (strTrim file), "",
         [Ev.query (strTrim file), Ev.killCmd (strTrim file)]) := by
      unfold killLeetPane
      rw [he]
      rfl
    refine ⟨fun h0 => absurd h0 h1, fun h0 => ?_, fun pid hp => ?_, ?_, ?_, ?_⟩
    · rw [he] at h0; simp at h0
    · rw [he] at hp
      simp only [Option.some.injEq] at hp
      rw [hk, ← hp]
    · rw [hk]; exact isLeetPaneAlive_of_trim_empty t "" rfl
    · rw [hk]; rw [killLeetPane_empty]
    · rw [hk]; rw [killLeetPane_empty]
  · have hk : killLeetPane t file = (true, "", [Ev.query (strTrim file)]) := by
      unfold killLeetPane
      rw [he]
    refine ⟨fun h0 => absurd h0 h1, fun _ => ?_, fun pid hp => ?_, ?_, ?_, ?_⟩
    · rw [hk]; exact ⟨rfl, by simp⟩
    · rw [he] at hp; simp at hp
    · rw [hk]; exact isLeetPaneAlive_of_trim_empty t "" rfl
    · rw [hk]; rw [killLeetPane_empty]
    · rw [hk]; rw [killLeetPane_empty]

/-- Witness for C2: at a healthy tmux with reference "%5" the kill issues
the verification query and one kill command, blanks the store, and a
subsequent liveness check is false. -/
theorem killLeetPane_idempotent_clears_store_witness :
    killLeetPane tmuxLive "%5" =
      (true, "", [Ev.query "%5", Ev.killCmd "%5"]) ∧
    (isLeetPaneAlive tmuxLive (killLeetPane tmuxLive "%5").2.1).1 = false :=
  ⟨(killLeetPane_idempotent_clears_store tmuxLive "%5").2.2.1 "%5" (by decide),
   (killLeetPane_idempotent_clears_store tmuxLive "%5").2.2.2.1⟩

/-- C3: stale-reference verification.  A pane id is returned only when
the persisted id is nonempty after trimming, the query for that exact id
exits 0 AND echoes the identical id back (leaving the store untouched);
on a failed query or an id mismatch the store is blanked and the result
is null. -/
theorem getLeetPaneId_verification_spec (t : Tmux) (file : String) :
    (∀ pid, (getLeetPaneId t file).1 = some pid →
      pid = strTrim file ∧ pid ≠ "" ∧
      (t.query pid).status = 0 ∧ strTrim (t.query pid).stdout = pid ∧
      (getLeetPaneId t file).2.1 = file) ∧
    (strTrim file ≠ "" →
      ((t.query (strTrim file)).status ≠ 0 ∨
        strTrim (t.query (strTrim file)).stdout ≠ strTrim file) →
      getLeetPaneId t file = (none, "", [Ev.query (strTrim file)])) := by
  constructor
  · intro pid hp
    unfold getLeetPaneId at hp ⊢
    dsimp only at hp ⊢
    by_cases h1 : strTrim file = ""
    · rw [if_pos h1] at hp
      simp at hp
    · rw [if_neg h1] at hp ⊢
      by_cases h2 : (t.query (strTrim file)).status = 0 ∧
          strTrim (t.query (strTrim file)).stdout = strTrim file
      · rw [if_pos h2] at hp ⊢
        simp at hp
        subst hp
        exact ⟨rfl, h1, h2.1, h2.2, rfl⟩
      · rw [if_neg h2] at hp
        simp at hp
  · intro h1 h2
    have hc : ¬((t.query (strTrim file)).status = 0 ∧
        strTrim (t.query (strTrim file)).stdout = strTrim file) := by
      rcases h2 with h | h
      · exact fun hab => h hab.1
      · exact fun hab => h hab.2
    unfold getLeetPaneId
    dsimp only
    rw [if_neg h1, if_neg hc]

/-- Witness for C3: a tmux that resolves "%5" to the different live pane
"%9" makes verification blank the store and report "not found". -/
theorem getLeetPaneId_verification_spec_witness :
    getLeetPaneId tmuxMismatch "%5" = (none, "", [Ev.query "%5"]) :=
  (getLeetPaneId_verification_spec tmuxMismatch "%5").2 (by decide) (by decide)

/-- C6: `spawnLeetPane` throws the environment error exactly when no tmux
session is active; inside tmux it always resolves (never throws), issues
the split command exactly once (no retry), resolves null on a nonzero
exit or a missing printed id, and resolves the trimmed id on success. -/
theorem spawnLeetPane_failure_semantics (t : Tmux) (file : String) :
    (t.inTmux = false →
      spawnLeetPane t file =
        Except.error "Leet requires tmux. Please run inside a tmux session.") ∧
    (t.inTmux = true →
      ∃ res fout l, spawnLeetPane t file =
          Except.ok (res, fout, l ++ [Ev.splitCmd]) ∧
        Ev.splitCmd ∉ l ∧
        (((t.split).status ≠ 0 ∨ strTrim (t.split).stdout = "") → res = none) ∧
        ((t.split).status = 0 ∧ strTrim (t.split).stdout ≠ "" →
          res = some (strTrim (t.split).stdout))) := by
  constructor
  · intro h
    unfold spawnLeetPane
    rw [h]
    simp
  · intro hin
    rcases getLeetPaneId_cases t file with ⟨h1, he⟩ | ⟨h1, he⟩ | ⟨h1, he⟩
    · by_cases hc : (t.split).status = 0 ∧ strTrim (t.split).stdout ≠ ""
      · refine ⟨some (strTrim (t.split).stdout), strTrim (t.split).stdout, [],
          ?_, by simp, fun h0 => ?_, fun _ => rfl⟩
        · unfold spawnLeetPane
          rw [hin, he]
          simp [hc]
        · rcases h0 with h0 | h0
          · exact absurd hc.1 h0
          · exact absurd h0 hc.2
      · refine ⟨none, file, [], ?_, by simp, fun _ => rfl,
          fun h0 => absurd h0 hc⟩
        unfold spawnLeetPane
        rw [hin, he]
        simp [hc]
    · have hkill : killLeetPane t file =
          (t.kill (strTrim file), "",
           [Ev.query (strTrim file), Ev.killCmd (strTrim file)]) := by
        unfold killLeetPane
        rw [he]
        rfl
      by_cases hc : (t.split).status = 0 ∧ strTrim (t.split).stdout ≠ ""
      · refine ⟨some (strTrim (t.split).stdout), strTrim (t.split).stdout,
          [Ev.query (strTrim file), Ev.query (strTrim file),
           Ev.killCmd (strTrim file)],
          ?_, by simp, fun h0 => ?_, fun _ => rfl⟩
        · unfold spawnLeetPane
          rw [hin, he]
          simp [hc, hkill]
        · rcases h0 with h0 | h0
          · exact absurd hc.1 h0
          · exact absurd h0 hc.2
      · refine ⟨none, "",
          [Ev.query (strTrim file), Ev.query (strTrim file),
           Ev.killCmd (strTrim file)],
          ?_, by simp, fun _ => rfl, fun h0 => absurd h0 hc⟩
        unfold spawnLeetPane
        rw [hin, he]
        simp [hc, hkill]
    · by_cases hc : (t.split).status = 0 ∧ strTrim (t.split).stdout ≠ ""
      · refine ⟨some (strTrim (t.split).stdout), strTrim (t.split).stdout,
          [Ev.query (strTrim file)], ?_, by simp, fun h0 => ?_, fun _ => rfl⟩
        · unfold spawnLeetPane
          rw [hin, he]
          simp [hc]
        · rcases h0 with h0 | h0
          · exact absurd hc.1 h0
          · exact absurd h0 hc.2
      · refine ⟨none, "", [Ev.query (strTrim file)], ?_, by simp,
          fun _ => rfl, fun h0 => absurd h0 hc⟩
        unfold spawnLeetPane
        rw [hin, he]
        simp [hc]

/-- Witness for C6: with no tmux session the spawn throws the environment
error; the second half is exercised at a tmux whose split fails. -/
theorem spawnLeetPane_failure_semantics_witness :
    spawnLeetPane tmuxNoSession "" =
      Except.error "Leet requires tmux. Please run inside a tmux session." ∧
    ∃ res fout l, spawnLeetPane tmuxDead "" =
      Except.ok (res, fout, l ++ [Ev.splitCmd]) ∧ Ev.splitCmd ∉ l ∧
      (((tmuxDead.split).status ≠ 0 ∨ strTrim (tmuxDead.split).stdout = "") →
        res = none) ∧
      ((tmuxDead.split).status = 0 ∧ strTrim (tmuxDead.split).stdout ≠ "" →
        res = some (strTrim (tmuxDead.split).stdout)) :=
  ⟨(spawnLeetPane_failure_semantics tmuxNoSession "").1 rfl,
   (spawnLeetPane_failure_semantics tmuxDead "").2 rfl⟩

/-- C7: `sendKeysToLeet` is a no-op returning false when no verified live
reference exists (no send command in the trace); with a verified
reference it forwards the literal key string and returns the command's
success; the hook-level `sendKeys` is additionally a silent no-op when
the hook holds no pane id. -/
theorem sendKeysToLeet_spec (t : Tmux) (keys file : String) :
    ((getLeetPaneId t file).1 = none →
      (sendKeysToLeet t keys file).1 = false ∧
      ∀ p k, Ev.sendCmd p k ∉ (sendKeysToLeet t keys file).2.2) ∧
    (∀ pid, (getLeetPaneId t file).1 = some pid →
      sendKeysToLeet t keys file =
        (t.send pid keys, file, [Ev.query pid, Ev.sendCmd pid keys])) ∧
    sendKeys none t keys file = (false, file, []) := by
  refine ⟨fun h0 => ?_, fun pid hp => ?_, rfl⟩
  · rcases getLeetPaneId_cases t file with ⟨h1, he⟩ | ⟨h1, he⟩ | ⟨h1, he⟩
    · unfold sendKeysToLeet
      rw [he]
      exact ⟨rfl, by simp⟩
    · rw [he] at h0
      simp at h0
    · unfold sendKeysToLeet
      rw [he]
      exact ⟨rfl, by simp⟩
  · have hg := getLeetPaneId_some_eq t file pid hp
    unfold sendKeysToLeet
    rw [hg]
    rfl

/-- Witness for C7: forwarding the named key Tab to verified pane "%5". -/
theorem sendKeysToLeet_spec_witness :
    sendKeysToLeet tmuxLive "Tab" "%5" =
      (true, "%5", [Ev.query "%5", Ev.sendCmd "%5" "Tab"]) :=
  (sendKeysToLeet_spec tmuxLive "Tab" "%5").2.1 "%5" (by decide)

/-- C4: scheduled-tick semantics.  A string capture updates
output/lastCapture/lastCaptureTime and fires the capture sink exactly
once with the text; a null capture with the pane still alive changes
nothing and fires no sink; a null capture with the pane dead stops the
loop (isRunning false, paneId cleared) and fires the exit sink exactly
once.  Concretely, the fake driver returning text on ticks 1-3 and null
with liveness false from tick 4 yields exactly three capture-sink calls
and exactly one exit-sink call over any ten ticks. -/
theorem doCapture_tick_semantics :
    (∀ text alive now s, doCapture (some text) alive now s =
      { state := { s with
          output := text,
          st := { s.st with lastCapture := text, lastCaptureTime := some now } },
        captures := [text], exits := 0, calls := [MgrCall.mCapture] }) ∧
    (∀ now s, doCapture none true now s =
      { state := s, captures := [], exits := 0,
        calls := [MgrCall.mCapture, MgrCall.mIsAlive] }) ∧
    (∀ now s, doCapture none false now s =
      { state := { s with st := { s.st with isRunning := false, paneId := none } },
        captures := [], exits := 1,
        calls := [MgrCall.mCapture, MgrCall.mIsAlive] }) ∧
    (runTicks scenarioDriver 10 1 hookStart).captures =
      ["text1", "text2", "text3"] ∧
    (runTicks scenarioDriver 10 1 hookStart).exits = 1 ∧
    (runTicks scenarioDriver 10 1 hookStart).state.st.isRunning = false ∧
    (runTicks scenarioDriver 10 1 hookStart).state.st.paneId = none :=
  ⟨fun _ _ _ _ => rfl, fun _ _ => rfl, fun _ _ => rfl,
   by decide, by decide, by decide, by decide⟩

/-- C5 counterexample: the claim says a configured interval of 0 (or an
omitted interval) disables the repeating timer; in the code the hook arms
`setInterval` unconditionally, so with captureInterval 0 the timer is
armed (at 0 ms), with the option omitted it is armed at the 1000 ms
default, and the canvas layer coerces a refreshInterval of 0 to 2000. -/
theorem captureEffectStart_zero_does_not_disable :
    (captureEffectStart true (some "%1") (some 0)).timerArmed = true ∧
    (captureEffectStart true (some "%1") (some 0)).timerInterval = 0 ∧
    (captureEffectStart true (some "%1") none).timerArmed = true ∧
    canvasCaptureInterval (some 0) = 2000 := by
  exact ⟨by decide, by decide, by decide, rfl⟩

/-- C5 amended: when the scheduler starts with a live pane it performs
one immediate capture and always arms the repeating timer; the interval
is the configured captureInterval with default 1000 ms (the canvas layer
passes `refreshInterval || 2000`, coercing both 0 and absent to 2000);
an interval of 0 arms a 0 ms timer rather than disabling it, and without
a live pane nothing runs at all. -/
theorem captureEffectStart_spec :
    (∀ pid ci, captureEffectStart true (some pid) ci =
      { immediateCapture := true, timerArmed := true,
        timerInterval := ci.getD 1000 }) ∧
    (∀ p ci, captureEffectStart false p ci =
      { immediateCapture := false, timerArmed := false, timerInterval := 0 }) ∧
    (∀ ci, captureEffectStart true none ci =
      { immediateCapture := false, timerArmed := false, timerInterval := 0 }) ∧
    canvasCaptureInterval none = 2000 ∧
    canvasCaptureInterval (some 0) = 2000 ∧
    (∀ n, canvasCaptureInterval (some (n + 1)) = n + 1) := by
  refine ⟨fun pid ci => ?_, fun p ci => ?_, fun ci => ?_, rfl, rfl, fun n => ?_⟩
  · simp [captureEffectStart]
  · simp [captureEffectStart]
  · simp [captureEffectStart]
  · simp [canvasCaptureInterval]

/-- C8 counterexample: with the latest cached capture output "line1"
(the current hook state after the spawn resolved to pane "%7" and the
scheduler captured), the `getViewState` reply still carries the
mount-time snapshot "" and a null pane id, so the reply is not built
from the latest cached capture output. -/
theorem handleMessage_getViewState_stale_at_mount :
    canvasCtxAfterCapture.current.output = "line1" ∧
    canvasCtxAfterCapture.current.st.paneId = some "%7" ∧
    handleMessage true canvasCtxAfterCapture "T" InMsg.getViewState =
      ([OutMsg.viewStateMsg
          { terminalSnapshot := "", cols := 80, rows := 24,
            runInfo := none, visibleMetrics := [],
            leetPaneId := none, errors := none,
            lastUpdated := "T" }], []) ∧
    ("" : String) ≠ "line1" :=
  ⟨rfl, rfl, rfl, by decide⟩

/-- C8 amended: handling an inbound `getViewState` sends one viewState
reply built from the mount-render state permanently captured by the
once-registered `onMessage` closure (mount-time output, pane id, error
and dimensions) — the reply is independent of the hook state current at
message time — and it forces no capture: the hook-action list is empty,
so the pane state is untouched, while `refresh` is the message that
invokes the hook's capture. -/
theorem handleMessage_getViewState_mount_closure_spec (connected : Bool)
    (ctx : CanvasMsgCtx) (now : String) (h : connected = true) :
    handleMessage connected ctx now InMsg.getViewState =
      ([OutMsg.viewStateMsg
          { terminalSnapshot := ctx.mount.output,
            cols := ctx.mountDims.1, rows := ctx.mountDims.2,
            runInfo := none, visibleMetrics := [],
            leetPaneId := ctx.mount.st.paneId,
            errors := (match ctx.mount.error with
                       | some e => some [e]
                       | none => none),
            lastUpdated := now }], []) ∧
    (∀ cur,
      handleMessage connected
        { current := cur, mount := ctx.mount, mountDims := ctx.mountDims }
        now InMsg.getViewState =
      handleMessage connected ctx now InMsg.getViewState) ∧
    HookAct.actCapture ∉
      (handleMessage connected ctx now InMsg.getViewState).2 ∧
    handleMessage connected ctx now InMsg.refresh = ([], [HookAct.actCapture]) := by
  subst h
  refine ⟨?_, fun cur => rfl, ?_, rfl⟩
  · unfold handleMessage sendViewState
    simp
  · unfold handleMessage
    simp

/-- Witness for C8 at the concrete post-capture dispatch context. -/
theorem handleMessage_getViewState_mount_closure_spec_witness :
    handleMessage true canvasCtxAfterCapture "T" InMsg.getViewState =
      ([OutMsg.viewStateMsg
          { terminalSnapshot := "", cols := 80, rows := 24,
            runInfo := none, visibleMetrics := [],
            leetPaneId := none, errors := none,
            lastUpdated := "T" }], []) :=
  (handleMessage_getViewState_mount_closure_spec true canvasCtxAfterCapture
    "T" rfl).1

/-- C9: the hook's on-demand `capture` (used by `refresh`) updates
output/lastCapture/lastCaptureTime on success and returns the text, but
never fires the capture or exit sinks, never consults liveness, and on a
null result changes nothing — so a forced refresh cannot produce an
outbound viewState nor trigger death detection. -/
theorem capture_on_demand_spec :
    (∀ text now s, capture (some text) now s =
      (some text,
       { state := { s with
           output := text,
           st := { s.st with lastCapture := text, lastCaptureTime := some now } },
         captures := [], exits := 0, calls := [MgrCall.mCapture] })) ∧
    (∀ now s, capture none now s =
      (none, { state := s, captures := [], exits := 0,
               calls := [MgrCall.mCapture] })) ∧
    (∀ c now s, (capture c now s).2.captures = [] ∧
      (capture c now s).2.exits = 0 ∧
      MgrCall.mIsAlive ∉ (capture c now s).2.calls ∧
      (capture c now s).2.state.st.isRunning = s.st.isRunning ∧
      (capture c now s).2.state.st.paneId = s.st.paneId) := by
  refine ⟨fun text now s => rfl, fun now s => rfl, fun c now s => ?_⟩
  cases c
  · exact ⟨rfl, rfl, by simp [capture], rfl, rfl⟩
  · exact ⟨rfl, rfl, by simp [capture], rfl, rfl⟩

/-- C10: after `restart` completes, lastCapture is "" and lastCaptureTime
is null in every case; on a returned id the state is running with that
paneId and no error, otherwise paneId is null, isRunning is false and the
error message is set.  `output` is untouched on both paths. -/
theorem restart_spec :
    (∀ s, restart none s =
      { st := { paneId := none, isRunning := false,
                lastCapture := "", lastCaptureTime := none },
        output := s.output, error := some "Failed to restart Leet pane" }) ∧
    (∀ pid s, restart (some pid) s =
      { st := { paneId := some pid, isRunning := true,
                lastCapture := "", lastCaptureTime := none },
        output := s.output, error := none }) ∧
    (∀ r s, (restart r s).st.lastCapture = "" ∧
      (restart r s).st.lastCaptureTime = none) := by
  refine ⟨fun s => rfl, fun pid s => rfl, fun r s => ?_⟩
  cases r
  · exact ⟨rfl, rfl⟩
  · exact ⟨rfl, rfl⟩
